import Mathlib

/-!
Shallow embedding of the RAG evaluation framework
(`src/aggregate_scores.py`, `src/rag_pipeline.py`, `src/run_eval.py`)
and proofs about its specified behaviour.

Scores are modelled as exact rationals; file contents, remote calls and
the language model are modelled as explicit inputs (oracles) so that the
control flow of the Python source is captured faithfully.
-/

namespace RagEval

/-! ## Score Aggregator (`src/aggregate_scores.py`) -/

/-- The persisted report built by `aggregate_scores` (step 6 of the source). -/
structure ScoreReport where
  model_name : String
  retrieval : ℚ
  generation : ℚ
  ragas : ℚ
  rqi : ℚ
  grade : String
  deriving Repr, DecidableEq

/-- A score source file: `none` models `FileNotFoundError`; otherwise the
parsed JSON object, restricted to its numeric fields (name ↦ value). -/
abbrev ScoreFile := Option (List (String × ℚ))

/-- Models `json.load(f).get(field, 0)` with the `except FileNotFoundError` handler:
a missing file yields score 0 together with a warning (`true`); a present
file yields the field's value, defaulting to 0 with no warning. -/
def loadScore (file : ScoreFile) (field : String) : ℚ × Bool :=
  match file with
  | none => (0, true)
  | some obj =>
    match obj.lookup field with
    | some v => (v, false)
    | none => (0, false)

/-- The grade ladder from `aggregate_scores` (lines 72–77 of the source):
`grade = "F"` then the `if rqi >= 0.9 ... elif ...` chain. -/
def gradeOf (rqi : ℚ) : String :=
  if rqi ≥ 0.9 then "A+"
  else if rqi ≥ 0.8 then "A"
  else if rqi ≥ 0.7 then "B"
  else if rqi ≥ 0.6 then "C"
  else if rqi ≥ 0.5 then "D"
  else "F"

/-- The function `aggregate_scores(save_name)` modelled on its three score files:
loads the three scores (missing file → 0 plus warning), computes
`rqi = retrieval*0.4 + generation*0.3 + ragas*0.3`, grades it, and returns
the report together with the flags telling which warnings were printed. -/
def aggregate_scores (retrievalFile generationFile ragasFile : ScoreFile)
    (save_name : Option String) : ScoreReport × (Bool × Bool × Bool) :=
  let (retrieval, w1) := loadScore retrievalFile "retrieval_score"
  let (generation, w2) := loadScore generationFile "generation_score"
  let (ragas, w3) := loadScore ragasFile "ragas_score"
  let rqi : ℚ := retrieval * 0.4 + generation * 0.3 + ragas * 0.3
  ({ model_name := save_name.getD "default"
     retrieval := retrieval
     generation := generation
     ragas := ragas
     rqi := rqi
     grade := gradeOf rqi }, (w1, w2, w3))

/-! ## RAG Query Engine and Retry Policy (`src/rag_pipeline.py`) -/

/-- Python's substring test `needle in hay`. -/
def containsSub (needle hay : String) : Bool :=
  decide (needle.toList <:+: hay.toList)

/-- Python's `s.lower()`: lowercase every character. -/
def strLower (s : String) : String :=
  String.mk (s.data.map Char.toLower)

/-- The rate-limit classifier of `rag` (line 197 of the source):
`"429" in error_msg or "Rate limit" in error_msg or "quota" in error_msg.lower()`.
Note that only the `"quota"` test lowercases the message first. -/
def isRateLimitError (msg : String) : Bool :=
  containsSub "429" msg || containsSub "Rate limit" msg ||
    containsSub "quota" (strLower msg)

/-- The rate-limit classifier as the spec describes it: all three signals
matched as case-insensitive substrings. Stated from the spec's words, to be
compared with `isRateLimitError` which is translated from the source. -/
def claimedRateLimitSignal (msg : String) : Bool :=
  containsSub "429" (strLower msg) || containsSub "rate limit" (strLower msg) ||
    containsSub "quota" (strLower msg)

/-- The budget `max_retries = 5` (line 185 of the source). -/
def max_retries : Nat := 5

/-- The base delay `base_delay = 20` seconds (line 186 of the source). -/
def base_delay : Nat := 20

/-- Outcome of the retry loop of `rag` (lines 190–207 of the source). -/
inductive RetryResult where
  /-- `invoke` succeeded and the loop was left by `break`. -/
  | success (answer : String)
  /-- a non-rate-limit error was re-raised immediately (`raise e`). -/
  | propagated (msg : String)
  /-- the loop finished with `final_result is None`, raising
  `Failed to process query after 5 retries due to rate limits.`. -/
  | exhausted (msg : String)
  deriving Repr, DecidableEq

/-- One tail of the retry loop: `attempt` is the current index of
`range(max_retries)` and `remaining` the number of iterations left.
`invoke i` is the outcome of `rag_chain_with_source.invoke(query)` on
attempt `i` (`Except.error msg` models a raised exception with text `msg`).
Returns the final outcome together with the list of `time.sleep` durations
performed, in order. -/
def retryFrom (invoke : Nat → Except String String) :
    Nat → Nat → RetryResult × List Nat
  | _, 0 =>
    (.exhausted "Failed to process query after 5 retries due to rate limits.",
      [])
  | attempt, remaining + 1 =>
    match invoke attempt with
    | .ok ans => (.success ans, [])
    | .error msg =>
      if isRateLimitError msg then
        let wait_time := base_delay * (attempt + 1) + 60
        let rest := retryFrom invoke (attempt + 1) remaining
        (rest.1, wait_time :: rest.2)
      else
        (.propagated msg, [])

/-- The whole retry loop `for attempt in range(max_retries)` plus the
trailing `if final_result is None: raise ...`. -/
def ragRetry (invoke : Nat → Except String String) : RetryResult × List Nat :=
  retryFrom invoke 0 max_retries

/-- The provider identifiers `get_llm` dispatches on. -/
def knownProviders : List String := ["openai", "vertex", "grok", "gemini", "groq"]

/-- The resolver `get_llm(provider)` (lines 17–81 of the source), modelled on the
environment (`env name` is `os.getenv(name)`): a raised `ValueError` becomes
`Except.error` with the source's message; constructing the client is `.ok`.
(The `ImportError` branches concern missing packages and are outside the
model; `vertex` reads its variables without checking them.) -/
def get_llm (provider : String) (env : String → Option String) :
    Except String Unit :=
  if provider = "openai" then
    match env "OPENAI_API_KEY" with
    | none => .error "OPENAI_API_KEY not found"
    | some _ => .ok ()
  else if provider = "vertex" then .ok ()
  else if provider = "grok" then
    match env "XAI_API_KEY" with
    | none => .error "XAI_API_KEY not found in .env"
    | some _ => .ok ()
  else if provider = "gemini" then
    match env "GOOGLE_API_KEY" with
    | none => .error "GOOGLE_API_KEY not found in .env"
    | some _ => .ok ()
  else if provider = "groq" then
    match env "GROQ_API_KEY" with
    | none => .error "GROQ_API_KEY not found in .env"
    | some _ => .ok ()
  else .error ("Unknown LLM provider: " ++ provider)

/-- What `rag` hands back to its caller when it returns normally. -/
inductive RagOutput where
  /-- the dictionaries `{"error": msg}` of lines 94, 103, 128 and 134. -/
  | errorField (msg : String)
  /-- the final result dictionary of lines 210–216, keeping the fields the
  orchestrator reads. -/
  | result (query answer : String) (prompt_version : String)
  deriving Repr, DecidableEq

/-- The control flow of `rag` (lines 83–216 of the source).
`loadIndex1`/`loadIndex2` are the two `get_embeddings` + `FAISS.load_local`
attempts (lines 90–94 and 130–134), `getLLM` the `get_llm` resolution used
at lines 100–103 and 125–128 (the same provider and environment both times),
and `invoke` the chain invocation per attempt.  The outer `Except` models an
exception escaping `rag` itself; `.ok` is a normal return. -/
def rag (query : String) (loadIndex1 loadIndex2 : Except String Unit)
    (getLLM : Except String Unit) (invoke : Nat → Except String String)
    (prompt_version : String) : Except String RagOutput :=
  match loadIndex1 with
  | .error e => .ok (.errorField ("Failed to load index/embeddings: " ++ e))
  | .ok _ =>
    match getLLM with
    | .error e => .ok (.errorField ("Failed to initialize LLM: " ++ e))
    | .ok _ =>
      match getLLM with
      | .error e => .ok (.errorField ("Failed to initialize LLM: " ++ e))
      | .ok _ =>
        match loadIndex2 with
        | .error e =>
          .ok (.errorField ("Failed to load index/embeddings: " ++ e))
        | .ok _ =>
          match (ragRetry invoke).1 with
          | .success ans => .ok (.result query ans prompt_version)
          | .propagated msg => .error msg
          | .exhausted msg => .error msg

/-! ## Prompt-Version Impact Orchestrator (`src/run_eval.py`)

Python `dict`s keyed by strings are modelled as association lists with
dict update semantics: assigning to an existing key replaces its value in
place, assigning to a fresh key appends. -/

/-- Dict read `d[k]` / membership `k in d` on a string-keyed dict. -/
def dictGet {α : Type} (k : String) : List (String × α) → Option α
  | [] => none
  | (k1, v) :: rest => if k1 = k then some v else dictGet k rest

/-- Dict assignment `d[k] = v` on a string-keyed dict. -/
def dictSet {α : Type} (k : String) (v : α) :
    List (String × α) → List (String × α)
  | [] => [(k, v)]
  | (k1, v1) :: rest =>
    if k1 = k then (k, v) :: rest else (k1, v1) :: dictSet k v rest

/-- The `metadata` dict stored per cell (line 145 of the source):
`res` minus its `"answer"` key. -/
structure RagMeta where
  query : String
  retrieved_chunks : List String
  retrieved_metadata : List (List (String × String))
  prompt_version : String
  deriving Repr, DecidableEq

/-- One `full_results[question]["prompt_results"][p_ver]` cell. -/
structure PromptEntry where
  response : String
  metadata : RagMeta
  change_summary : Option String
  scores : Option ScoreReport
  deriving Repr, DecidableEq

/-- One `full_results[question]` entry. -/
structure QuestionEntry where
  question : String
  prompt_results : List (String × PromptEntry)
  deriving Repr, DecidableEq

/-- The result store `full_results` (the single JSON document). -/
abbrev Store := List (String × QuestionEntry)

/-- The cell of `(question, p_ver)` in the store, when present. -/
def lookupCell (store : Store) (question p_ver : String) :
    Option PromptEntry :=
  match dictGet question store with
  | none => none
  | some qe => dictGet p_ver qe.prompt_results

/-- The table `PROMPT_VERSIONS` (lines 12–18 of the source). -/
def PROMPT_VERSIONS : List (String × String) :=
  [("prompt_v0",
    "You are a helpful assistant. Answer the user\u2019s question clearly and concisely."),
   ("prompt_v1",
    "You are a helpful assistant.\nAnswer the user\u2019s question clearly, using well-structured sentences.\nPrefer concise explanations, but include key details when helpful."),
   ("prompt_v2",
    "You are a factual assistant.\nAnswer the question using only the information provided in the retrieved context.\nIf the context is insufficient, say that explicitly instead of guessing."),
   ("prompt_v3",
    "You are an expert assistant.\nFirst, reason internally about what information from the retrieved context is relevant.\nThen provide a complete, well-explained answer grounded in that context.\nAvoid speculation and unsupported claims."),
   ("prompt_v4",
    "You are an expert, evaluation-aware assistant.\n\nInstructions:\n- Ground every claim strictly in the retrieved context\n- Be complete but avoid unnecessary verbosity\n- Do not introduce external knowledge\n- If multiple interpretations exist, state them clearly\n- If the context is insufficient, say that explicitly\n\nProduce a clear, faithful, and well-structured answer.")]

/-- A successful outcome of the `rag(...)` call made by the generation
loop: the answer plus the metadata fields kept alongside it. -/
structure RagCallResult where
  answer : String
  meta : RagMeta
  deriving Repr, DecidableEq

/-- The body of the generation loop for one `item` of `test_data`
(lines 131–163 of the source).  `ragFn question p_ver` is the outcome of
the `rag(...)` call; `csFn baseline new` is what `generate_change_summary`
returns (the source catches every failure of that call internally, so it
always returns a string). -/
def processQuestion (ragFn : String → String → RagCallResult)
    (csFn : String → String → String) (p_ver : String)
    (store : Store) (question : String) : Store :=
  if question = "" then store
  else
    let store1 : Store :=
      match dictGet question store with
      | none =>
        dictSet question { question := question, prompt_results := [] } store
      | some _ => store
    match dictGet question store1 with
    | none => store1
    | some qe =>
      match dictGet p_ver qe.prompt_results with
      | some _ => store1
      | none =>
        let res := ragFn question p_ver
        let cs : Option String :=
          if p_ver ≠ "prompt_v0" then
            match dictGet "prompt_v0" qe.prompt_results with
            | some base => some (csFn base.response res.answer)
            | none => none
          else none
        let entry : PromptEntry :=
          { response := res.answer, metadata := res.meta
            change_summary := cs, scores := none }
        dictSet question
          { qe with prompt_results := dictSet p_ver entry qe.prompt_results }
          store1

/-- The generation loop `for item in test_data` of
`run_prompt_version_eval` for one prompt version (`questions` is the list
of `item.get("query")` values; a falsy query is skipped by `continue`). -/
def generationPass (ragFn : String → String → RagCallResult)
    (csFn : String → String → String) (p_ver : String)
    (store : Store) : List String → Store
  | [] => store
  | q :: rest =>
    generationPass ragFn csFn p_ver (processQuestion ragFn csFn p_ver store q)
      rest

/-- The harvest step (lines 188–205 of the source): attach a copy of the
per-version score report, annotated with the version label, to every
question that has a cell for `p_ver`.  `report = none` models a missing
report file, in which case nothing is attached. -/
def attachScores (p_ver : String) (report : Option ScoreReport) :
    Store → Store
  | store =>
    match report with
    | none => store
    | some r =>
      store.map fun (q, qe) =>
        match dictGet p_ver qe.prompt_results with
        | none => (q, qe)
        | some cell =>
          let cell1 : PromptEntry := { cell with scores := some r }
          (q, { qe with
                prompt_results := dictSet p_ver cell1 qe.prompt_results })

/-- The per-version body of `run_prompt_version_eval`: the generation loop
followed by the harvest (the three scoring subprocesses in between are
external; `reportOf p_ver` is the report file they leave behind). -/
def runVersion (ragFn : String → String → RagCallResult)
    (csFn : String → String → String)
    (reportOf : String → Option ScoreReport) (questions : List String)
    (store : Store) (p_ver : String) : Store :=
  attachScores p_ver (reportOf p_ver)
    (generationPass ragFn csFn p_ver store questions)

/-- Membership test `v in PROMPT_VERSIONS`. -/
def knownVersion (v : String) : Bool :=
  (dictGet v PROMPT_VERSIONS).isSome

/-- The `--prompt_versions` branch of `main` (lines 233–242 of the
source): validate the whole list, exiting with an error on the first
unknown identifier, and only then hand the list to
`run_prompt_version_eval`.  `.error v` models `sys.exit(1)` after the
`Unknown prompt version` message for `v`; in that case no `rag` call is
made and the store is left untouched. -/
def mainPromptMode (ragFn : String → String → RagCallResult)
    (csFn : String → String → String)
    (reportOf : String → Option ScoreReport) (questions : List String)
    (versions : List String) (store : Store) : Except String Store :=
  match versions.find? (fun v => !knownVersion v) with
  | some v => .error ("Unknown prompt version " ++ v)
  | none =>
    .ok (versions.foldl (runVersion ragFn csFn reportOf questions) store)

/-! ## Theorems: Score Aggregator -/

/-- C1: for every triple of input scores (whatever the three source files
hold), the report computed by `aggregate_scores` satisfies
`rqi = 0.4*retrieval + 0.3*generation + 0.3*ragas` exactly. -/
theorem rqi_is_weighted_composite (rf gf af : ScoreFile)
    (save_name : Option String) :
    ((aggregate_scores rf gf af save_name).1).rqi =
      0.4 * ((aggregate_scores rf gf af save_name).1).retrieval
        + 0.3 * ((aggregate_scores rf gf af save_name).1).generation
        + 0.3 * ((aggregate_scores rf gf af save_name).1).ragas := by
  simp only [aggregate_scores]
  ring

/-- C2: the letter grade follows the inclusive-lower-bound threshold
table: `rqi ≥ 0.9 → A+`, `0.8 ≤ rqi < 0.9 → A`, `0.7 ≤ rqi < 0.8 → B`,
`0.6 ≤ rqi < 0.7 → C`, `0.5 ≤ rqi < 0.6 → D`, `rqi < 0.5 → F`. -/
theorem grade_threshold_table (rqi : ℚ) :
    (0.9 ≤ rqi → gradeOf rqi = "A+")
    ∧ (0.8 ≤ rqi → rqi < 0.9 → gradeOf rqi = "A")
    ∧ (0.7 ≤ rqi → rqi < 0.8 → gradeOf rqi = "B")
    ∧ (0.6 ≤ rqi → rqi < 0.7 → gradeOf rqi = "C")
    ∧ (0.5 ≤ rqi → rqi < 0.6 → gradeOf rqi = "D")
    ∧ (rqi < 0.5 → gradeOf rqi = "F") := by
  unfold gradeOf
  refine ⟨fun h1 => ?_, fun h1 h2 => ?_, fun h1 h2 => ?_, fun h1 h2 => ?_,
    fun h1 h2 => ?_, fun h1 => ?_⟩ <;>
    split_ifs <;> first | rfl | linarith

/-- C2 witness: the table at the five boundary values exactly, plus one
value below every threshold. -/
theorem grade_threshold_table_boundaries :
    gradeOf 0.9 = "A+" ∧ gradeOf 0.8 = "A" ∧ gradeOf 0.7 = "B"
    ∧ gradeOf 0.6 = "C" ∧ gradeOf 0.5 = "D" ∧ gradeOf 0.45 = "F" :=
  ⟨(grade_threshold_table 0.9).1 (by norm_num),
   (grade_threshold_table 0.8).2.1 (by norm_num) (by norm_num),
   (grade_threshold_table 0.7).2.2.1 (by norm_num) (by norm_num),
   (grade_threshold_table 0.6).2.2.2.1 (by norm_num) (by norm_num),
   (grade_threshold_table 0.5).2.2.2.2.1 (by norm_num) (by norm_num),
   (grade_threshold_table 0.45).2.2.2.2.2 (by norm_num)⟩

/-- C7: a missing score source file (for each of the three scores in turn)
yields score 0 for that component together with its warning, and the full
report is still produced (`aggregate_scores` is total and returns a
report whose remaining fields are untouched by the failure). -/
theorem missing_score_file_nonfatal (rf gf af : ScoreFile)
    (save_name : Option String) :
    ((aggregate_scores none gf af save_name).1.retrieval = 0
      ∧ (aggregate_scores none gf af save_name).2.1 = true)
    ∧ ((aggregate_scores rf none af save_name).1.generation = 0
      ∧ (aggregate_scores rf none af save_name).2.2.1 = true)
    ∧ ((aggregate_scores rf gf none save_name).1.ragas = 0
      ∧ (aggregate_scores rf gf none save_name).2.2.2 = true)
    ∧ (aggregate_scores none gf af save_name).1.grade =
        gradeOf (aggregate_scores none gf af save_name).1.rqi := by
  refine ⟨⟨?_, ?_⟩, ⟨?_, ?_⟩, ⟨?_, ?_⟩, ?_⟩ <;>
    simp [aggregate_scores, loadScore]

/-- C10: a score file that exists and parses but lacks the expected
numeric field yields score 0 for that component with NO warning (unlike
the missing-file case), and the report is still produced. -/
theorem missing_score_field_silent (rf gf af : ScoreFile)
    (save_name : Option String) (o1 o2 o3 : List (String × ℚ))
    (h1 : o1.lookup "retrieval_score" = none)
    (h2 : o2.lookup "generation_score" = none)
    (h3 : o3.lookup "ragas_score" = none) :
    ((aggregate_scores (some o1) gf af save_name).1.retrieval = 0
      ∧ (aggregate_scores (some o1) gf af save_name).2.1 = false)
    ∧ ((aggregate_scores rf (some o2) af save_name).1.generation = 0
      ∧ (aggregate_scores rf (some o2) af save_name).2.2.1 = false)
    ∧ ((aggregate_scores rf gf (some o3) save_name).1.ragas = 0
      ∧ (aggregate_scores rf gf (some o3) save_name).2.2.2 = false) := by
  refine ⟨⟨?_, ?_⟩, ⟨?_, ?_⟩, ⟨?_, ?_⟩⟩ <;>
    simp [aggregate_scores, loadScore, h1, h2, h3]

/-- C10 witness: empty JSON objects for all three files. -/
theorem missing_score_field_silent_witness :
    (List.lookup "retrieval_score" ([] : List (String × ℚ)) = none
      ∧ List.lookup "generation_score" ([] : List (String × ℚ)) = none
      ∧ List.lookup "ragas_score" ([] : List (String × ℚ)) = none)
    ∧ (((aggregate_scores (some []) none none none).1.retrieval = 0
        ∧ (aggregate_scores (some []) none none none).2.1 = false)
      ∧ ((aggregate_scores none (some []) none none).1.generation = 0
        ∧ (aggregate_scores none (some []) none none).2.2.1 = false)
      ∧ ((aggregate_scores none none (some []) none).1.ragas = 0
        ∧ (aggregate_scores none none (some []) none).2.2.2 = false)) :=
  ⟨⟨rfl, rfl, rfl⟩,
    missing_score_field_silent none none none none [] [] [] rfl rfl rfl⟩

/-! ## Theorems: Retry Policy and RAG Query Engine -/

/-- C4 counterexample: the error text `"rate limit exceeded"` matches the
spec's case-insensitive signal set, but the source's classifier (which
tests `"Rate limit"` case-sensitively) rejects it, so the call propagates
immediately instead of retrying. -/
theorem rate_limit_case_sensitivity_cex :
    claimedRateLimitSignal "rate limit exceeded" = true
    ∧ isRateLimitError "rate limit exceeded" = false
    ∧ ragRetry (fun _ => Except.error "rate limit exceeded") =
        (RetryResult.propagated "rate limit exceeded", []) := by
  decide

/-- C4 amended: an error is classified as rate-limit (and retried) iff its
text contains `"429"` or `"Rate limit"` as a case-sensitive substring, or
`"quota"` as a case-insensitive substring; any error not matching these
signals propagates immediately without retry and without sleeping. -/
theorem rate_limit_classification (m : String)
    (invoke : Nat → Except String String)
    (hinv : invoke 0 = Except.error m) :
    (isRateLimitError m = true ↔
      ("429".toList <:+: m.toList ∨ "Rate limit".toList <:+: m.toList
        ∨ "quota".toList <:+: (strLower m).toList))
    ∧ (isRateLimitError m = false →
        ragRetry invoke = (RetryResult.propagated m, [])) := by
  constructor
  · simp only [isRateLimitError, containsSub, Bool.or_eq_true,
      decide_eq_true_eq, or_assoc]
  · intro h
    simp [ragRetry, max_retries, retryFrom, hinv, h]

/-- C4 witness: a `429` error is classified as rate-limited. -/
theorem rate_limit_classification_witness :
    ((fun _ => Except.error "429" : Nat → Except String String) 0 =
      Except.error "429")
    ∧ ((isRateLimitError "429" = true ↔
        ("429".toList <:+: "429".toList
          ∨ "Rate limit".toList <:+: "429".toList
          ∨ "quota".toList <:+: (strLower "429").toList))
      ∧ (isRateLimitError "429" = false →
          ragRetry (fun _ => Except.error "429") =
            (RetryResult.propagated "429", []))) :=
  ⟨rfl, rate_limit_classification "429" (fun _ => Except.error "429") rfl⟩

/-- C8 counterexample: with every attempt failing on a rate-limit error,
the loop performs five sleeps (80, 100, 120, 140, 160 seconds) for five
attempts — the last sleep happens when no attempt remains and is followed
by the terminal error, not by a retry, contradicting "sleeps only when
attempts remain". -/
theorem backoff_sleeps_after_last_attempt_cex :
    ragRetry (fun _ => Except.error "429") =
      (RetryResult.exhausted
        "Failed to process query after 5 retries due to rate limits.",
        [80, 100, 120, 140, 160])
    ∧ ¬ ((ragRetry (fun _ => Except.error "429")).2.length ≤
          max_retries - 1) := by
  decide

/-- C8 amended: when every attempt fails with a rate-limit-matched error,
the loop sleeps `base_delay * (attempt_index + 1) + 60` seconds after
every failed attempt — including the fifth and last, after which no retry
follows — and then fails with the terminal retries-exhausted error. -/
theorem backoff_linear_then_exhausted (invoke : Nat → Except String String)
    (h : ∀ i, i < max_retries →
      ∃ m, invoke i = Except.error m ∧ isRateLimitError m = true) :
    ragRetry invoke =
      (RetryResult.exhausted
        "Failed to process query after 5 retries due to rate limits.",
        (List.range max_retries).map (fun i => base_delay * (i + 1) + 60)) := by
  obtain ⟨m0, e0, r0⟩ := h 0 (by norm_num [max_retries])
  obtain ⟨m1, e1, r1⟩ := h 1 (by norm_num [max_retries])
  obtain ⟨m2, e2, r2⟩ := h 2 (by norm_num [max_retries])
  obtain ⟨m3, e3, r3⟩ := h 3 (by norm_num [max_retries])
  obtain ⟨m4, e4, r4⟩ := h 4 (by norm_num [max_retries])
  simp [ragRetry, max_retries, base_delay, retryFrom,
    e0, e1, e2, e3, e4, r0, r1, r2, r3, r4, List.range_succ]

/-- C8 witness: constant `429` failures exhaust the budget with the five
linearly increasing sleeps. -/
theorem backoff_linear_then_exhausted_witness :
    (∀ i, i < max_retries →
      ∃ m, (fun _ => Except.error "429" : Nat → Except String String) i =
          Except.error m ∧ isRateLimitError m = true)
    ∧ ragRetry (fun _ => Except.error "429") =
        (RetryResult.exhausted
          "Failed to process query after 5 retries due to rate limits.",
          (List.range max_retries).map
            (fun i => base_delay * (i + 1) + 60)) :=
  ⟨fun _ _ => ⟨"429", rfl, by decide⟩,
    backoff_linear_then_exhausted (fun _ => Except.error "429")
      (fun _ _ => ⟨"429", rfl, by decide⟩)⟩

/-- C9: failures to load the embedding function or vector index (at either
of the two load sites), an unknown LLM provider, and a missing credential
each make `rag` return normally with a structured error field, never
raising. -/
theorem rag_returns_structured_errors (query pv e : String)
    (li2 gl : Except String Unit) (invoke : Nat → Except String String)
    (provider : String) (env : String → Option String)
    (hp : provider ∉ knownProviders) (hcred : env "OPENAI_API_KEY" = none) :
    rag query (Except.error e) li2 gl invoke pv =
      Except.ok (RagOutput.errorField
        ("Failed to load index/embeddings: " ++ e))
    ∧ rag query (Except.ok ()) (Except.error e) (Except.ok ()) invoke pv =
      Except.ok (RagOutput.errorField
        ("Failed to load index/embeddings: " ++ e))
    ∧ rag query (Except.ok ()) li2 (get_llm provider env) invoke pv =
      Except.ok (RagOutput.errorField
        ("Failed to initialize LLM: " ++ ("Unknown LLM provider: " ++ provider)))
    ∧ rag query (Except.ok ()) li2 (get_llm "openai" env) invoke pv =
      Except.ok (RagOutput.errorField
        ("Failed to initialize LLM: " ++ "OPENAI_API_KEY not found")) := by
  simp only [knownProviders, List.mem_cons, List.not_mem_nil, or_false,
    not_or] at hp
  obtain ⟨hp1, hp2, hp3, hp4, hp5⟩ := hp
  refine ⟨rfl, rfl, ?_, ?_⟩
  · simp [rag, get_llm, hp1, hp2, hp3, hp4, hp5]
  · simp [rag, get_llm, hcred]

/-- C9 witness: an unknown provider `"anthropic"` with an empty
environment, and a concrete index-load failure. -/
theorem rag_returns_structured_errors_witness :
    ("anthropic" ∉ knownProviders
      ∧ (fun _ => none : String → Option String) "OPENAI_API_KEY" = none)
    ∧ (rag "q" (Except.error "boom") (Except.ok ()) (Except.ok ())
        (fun _ => Except.ok "a") "prompt_v0" =
        Except.ok (RagOutput.errorField
          ("Failed to load index/embeddings: " ++ "boom"))
      ∧ rag "q" (Except.ok ()) (Except.error "boom") (Except.ok ())
          (fun _ => Except.ok "a") "prompt_v0" =
        Except.ok (RagOutput.errorField
          ("Failed to load index/embeddings: " ++ "boom"))
      ∧ rag "q" (Except.ok ()) (Except.ok ())
          (get_llm "anthropic" (fun _ => none))
          (fun _ => Except.ok "a") "prompt_v0" =
        Except.ok (RagOutput.errorField
          ("Failed to initialize LLM: " ++
            ("Unknown LLM provider: " ++ "anthropic")))
      ∧ rag "q" (Except.ok ()) (Except.ok ())
          (get_llm "openai" (fun _ => none))
          (fun _ => Except.ok "a") "prompt_v0" =
        Except.ok (RagOutput.errorField
          ("Failed to initialize LLM: " ++ "OPENAI_API_KEY not found"))) :=
  ⟨⟨by decide, rfl⟩,
    rag_returns_structured_errors "q" "prompt_v0" "boom" (Except.ok ())
      (Except.ok ()) (fun _ => Except.ok "a") "anthropic" (fun _ => none)
      (by decide) rfl⟩

/-! ## Theorems: Prompt-Version Impact Orchestrator -/

/-- Reading back the key just written. -/
theorem dictGet_dictSet_self {α : Type} (k : String) (v : α)
    (d : List (String × α)) : dictGet k (dictSet k v d) = some v := by
  induction d with
  | nil => simp [dictGet, dictSet]
  | cons hd tl ih =>
    obtain ⟨k1, v1⟩ := hd
    by_cases h : k1 = k <;> simp [dictSet, dictGet, h, ih]

/-- Writing one key leaves every other key unchanged. -/
theorem dictGet_dictSet_ne {α : Type} {k k2 : String} (h : k ≠ k2) (v : α)
    (d : List (String × α)) : dictGet k2 (dictSet k v d) = dictGet k2 d := by
  induction d with
  | nil => simp [dictGet, dictSet, h]
  | cons hd tl ih =>
    obtain ⟨k1, v1⟩ := hd
    by_cases hk : k1 = k
    · subst hk
      simp [dictSet, dictGet, h]
    · simp [dictSet, dictGet, hk, ih]

/-- Processing one question touches no other question's cells. -/
theorem processQuestion_other_question (f : String → String → RagCallResult)
    (g : String → String → String) (v : String) (s : Store) (q q2 w : String)
    (hne : q2 ≠ q) :
    lookupCell (processQuestion f g v s q2) q w = lookupCell s q w := by
  unfold processQuestion
  by_cases h0 : q2 = ""
  · simp [h0]
  · simp only [if_neg h0]
    cases hq : dictGet q2 s with
    | none =>
      simp only [hq, dictGet_dictSet_self]
      simp [lookupCell, dictGet, dictGet_dictSet_ne hne]
    | some qe =>
      simp only [hq]
      cases hv : dictGet v qe.prompt_results with
      | some _ => simp
      | none => simp [lookupCell, dictGet_dictSet_ne hne]

/-- A cell already present survives processing any question. -/
theorem processQuestion_preserves_cell (f : String → String → RagCallResult)
    (g : String → String → String) (v : String) (s : Store) (q q2 : String)
    (e : PromptEntry) (h : lookupCell s q v = some e) :
    lookupCell (processQuestion f g v s q2) q v = some e := by
  by_cases hne : q2 = q
  · subst hne
    unfold processQuestion
    by_cases h0 : q2 = ""
    · subst h0; simpa using h
    · simp only [if_neg h0]
      unfold lookupCell at h
      cases hq : dictGet q2 s with
      | none => rw [hq] at h; simp at h
      | some qe =>
        rw [hq] at h
        replace h : dictGet v qe.prompt_results = some e := h
        simp only [hq, h, lookupCell]
  · rw [processQuestion_other_question f g v s q q2 v hne]
    exact h

/-- A cell already present survives a whole generation pass. -/
theorem generationPass_preserves_cell (f : String → String → RagCallResult)
    (g : String → String → String) (v : String) (qs : List String) :
    ∀ (s : Store) (q : String) (e : PromptEntry),
      lookupCell s q v = some e →
      lookupCell (generationPass f g v s qs) q v = some e := by
  induction qs with
  | nil => intro s q e h; exact h
  | cons q2 rest ih =>
    intro s q e h
    simp only [generationPass]
    exact ih _ _ _ (processQuestion_preserves_cell f g v s q q2 e h)

/-- Processing a question whose cell for `v` is absent creates that cell,
with a change summary exactly when the baseline cell existed beforehand. -/
theorem processQuestion_creates_cell (f : String → String → RagCallResult)
    (g : String → String → String) (v : String) (s : Store) (q : String)
    (hv : v ≠ "prompt_v0") (h0 : q ≠ "")
    (habs : lookupCell s q v = none) :
    ∃ e, lookupCell (processQuestion f g v s q) q v = some e
      ∧ e.change_summary.isSome = (lookupCell s q "prompt_v0").isSome := by
  unfold processQuestion
  simp only [if_neg h0]
  cases hq : dictGet q s with
  | none =>
    simp only [hq, dictGet_dictSet_self]
    refine ⟨⟨(f q v).answer, (f q v).meta, none, none⟩, ?_, ?_⟩
    · simp [lookupCell, dictGet, dictGet_dictSet_self, hv]
    · simp [lookupCell, hq]
  | some qe =>
    replace habs : dictGet v qe.prompt_results = none := by
      unfold lookupCell at habs; rw [hq] at habs; exact habs
    simp only [hq, habs]
    cases hb : dictGet "prompt_v0" qe.prompt_results with
    | some b =>
      refine ⟨⟨(f q v).answer, (f q v).meta,
        some (g b.response (f q v).answer), none⟩, ?_, ?_⟩
      · simp [lookupCell, dictGet_dictSet_self, hb, hv]
      · simp [lookupCell, hq, hb]
    | none =>
      refine ⟨⟨(f q v).answer, (f q v).meta, none, none⟩, ?_, ?_⟩
      · simp [lookupCell, dictGet_dictSet_self, hb, hv]
      · simp [lookupCell, hq, hb]

/-- C3: a `(question, variant)` cell already present when the orchestrator
processes that variant is treated as a skip signal — processing the
question leaves the store untouched — and the entry survives the whole
generation pass unchanged. -/
theorem existing_cell_skipped_and_preserved
    (f : String → String → RagCallResult) (g : String → String → String)
    (v : String) (s : Store) (qs : List String) (q : String)
    (e : PromptEntry) (h : lookupCell s q v = some e) :
    processQuestion f g v s q = s
    ∧ lookupCell (generationPass f g v s qs) q v = some e := by
  constructor
  · unfold processQuestion
    by_cases h0 : q = ""
    · simp [h0]
    · simp only [if_neg h0]
      unfold lookupCell at h
      cases hq : dictGet q s with
      | none => rw [hq] at h; simp at h
      | some qe =>
        rw [hq] at h
        replace h : dictGet v qe.prompt_results = some e := h
        simp only [hq, h]
  · exact generationPass_preserves_cell f g v qs s q e h

/-- C3 witness fixtures: a store holding one already-generated cell. -/
def sampleMeta : RagMeta :=
  { query := "q1", retrieved_chunks := ["chunk"],
    retrieved_metadata := [[("source", "doc.md")]],
    prompt_version := "prompt_v1" }

/-- An already-present cell for `("q1", "prompt_v1")`. -/
def sampleEntry : PromptEntry :=
  { response := "old answer", metadata := sampleMeta,
    change_summary := none, scores := none }

/-- A store in which `("q1", "prompt_v1")` is already generated. -/
def sampleStore : Store :=
  [("q1", { question := "q1",
            prompt_results := [("prompt_v1", sampleEntry)] })]

/-- A deterministic stand-in for the `rag` call. -/
def sampleRag : String → String → RagCallResult :=
  fun q pv =>
    { answer := "fresh answer",
      meta := { query := q, retrieved_chunks := [],
                retrieved_metadata := [], prompt_version := pv } }

/-- C3 witness: on `sampleStore` the pre-existing cell is skipped and kept
verbatim across the pass. -/
theorem existing_cell_skipped_and_preserved_witness :
    lookupCell sampleStore "q1" "prompt_v1" = some sampleEntry
    ∧ (processQuestion sampleRag (fun _ _ => "cs") "prompt_v1" sampleStore
          "q1" = sampleStore
      ∧ lookupCell
          (generationPass sampleRag (fun _ _ => "cs") "prompt_v1"
            sampleStore ["q1", "q2"]) "q1" "prompt_v1" = some sampleEntry) :=
  ⟨rfl,
    existing_cell_skipped_and_preserved sampleRag (fun _ _ => "cs")
      "prompt_v1" sampleStore ["q1", "q2"] "q1" sampleEntry rfl⟩

/-- C5: for a non-baseline variant `v` and a question `q` in the
evaluation set whose `(q, v)` cell is absent when the pass starts, the
pass creates the cell, and its `change_summary` is present iff the
baseline cell `(q, "prompt_v0")` had a response at the time `v` was
processed (the pass for `v` never touches baseline cells, so that moment
is captured by the store the pass started from). -/
theorem change_summary_iff_baseline (f : String → String → RagCallResult)
    (g : String → String → String) (v : String) (qs : List String)
    (s : Store) (q : String) (hv : v ≠ "prompt_v0") (hq : q ∈ qs)
    (h0 : q ≠ "") (habs : lookupCell s q v = none) :
    ∃ e, lookupCell (generationPass f g v s qs) q v = some e
      ∧ e.change_summary.isSome = (lookupCell s q "prompt_v0").isSome := by
  induction qs generalizing s with
  | nil => cases hq
  | cons q2 rest ih =>
    simp only [generationPass]
    by_cases heq : q2 = q
    · subst heq
      obtain ⟨e, he, hcs⟩ := processQuestion_creates_cell f g v s q2 hv h0 habs
      exact ⟨e, generationPass_preserves_cell f g v rest _ q2 e he, hcs⟩
    · have hq2 : q ∈ rest := by
        rcases List.mem_cons.mp hq with h | h
        · exact absurd h.symm heq
        · exact h
      have habs2 : lookupCell (processQuestion f g v s q2) q v = none := by
        rw [processQuestion_other_question f g v s q q2 v heq]; exact habs
      obtain ⟨e, he, hcs⟩ := ih (processQuestion f g v s q2) hq2 habs2
      refine ⟨e, he, ?_⟩
      rw [hcs, processQuestion_other_question f g v s q q2 "prompt_v0" heq]

/-- A store in which the baseline answer for `"q2"` is already present. -/
def baselineStore : Store :=
  [("q2", { question := "q2",
            prompt_results :=
              [("prompt_v0",
                { response := "baseline answer", metadata := sampleMeta,
                  change_summary := none, scores := none })] })]

/-- C5 witness: processing `prompt_v1` over `baselineStore` creates the
`("q2", "prompt_v1")` cell with a change summary, because the baseline
cell already had a response. -/
theorem change_summary_iff_baseline_witness :
    ("prompt_v1" ≠ "prompt_v0" ∧ "q2" ∈ ["q2"] ∧ "q2" ≠ ""
      ∧ lookupCell baselineStore "q2" "prompt_v1" = none)
    ∧ ∃ e, lookupCell
          (generationPass sampleRag (fun _ _ => "summary") "prompt_v1"
            baselineStore ["q2"]) "q2" "prompt_v1" = some e
        ∧ e.change_summary.isSome =
            (lookupCell baselineStore "q2" "prompt_v0").isSome :=
  ⟨⟨by decide, by decide, by decide, rfl⟩,
    change_summary_iff_baseline sampleRag (fun _ _ => "summary") "prompt_v1"
      ["q2"] baselineStore "q2" (by decide) (by decide) (by decide) rfl⟩

/-- C6: a variant list containing any identifier outside the fixed
`PROMPT_VERSIONS` set makes the run fail during up-front validation: the
result is an error, no `rag` call is made, and the store is not written. -/
theorem unknown_variant_rejected (ragFn : String → String → RagCallResult)
    (csFn : String → String → String)
    (reportOf : String → Option ScoreReport) (questions : List String)
    (versions : List String) (store : Store) (v : String)
    (hv : v ∈ versions) (hunk : knownVersion v = false) :
    ∃ msg, mainPromptMode ragFn csFn reportOf questions versions store =
      Except.error msg := by
  have hsome : (versions.find? (fun x => !knownVersion x)).isSome := by
    rw [List.find?_isSome]
    exact ⟨v, hv, by simp [hunk]⟩
  obtain ⟨w, hw⟩ := Option.isSome_iff_exists.mp hsome
  exact ⟨"Unknown prompt version " ++ w, by simp [mainPromptMode, hw]⟩

/-- C6 witness: `"prompt_v9"` is not a known version, so a run over
`["prompt_v0", "prompt_v9"]` is rejected whole. -/
theorem unknown_variant_rejected_witness :
    ("prompt_v9" ∈ ["prompt_v0", "prompt_v9"]
      ∧ knownVersion "prompt_v9" = false)
    ∧ ∃ msg, mainPromptMode sampleRag (fun _ _ => "summary") (fun _ => none)
        ["q1"] ["prompt_v0", "prompt_v9"] [] = Except.error msg :=
  ⟨⟨by decide, by decide⟩,
    unknown_variant_rejected sampleRag (fun _ _ => "summary") (fun _ => none)
      ["q1"] ["prompt_v0", "prompt_v9"] [] "prompt_v9" (by decide)
      (by decide)⟩

end RagEval
